import Mathlib

/-!
Shallow embedding of the lumino-python SDK core (luminolabs/lumino-python):
the request/response pipeline, the error taxonomy, and the schema/validation
layer of `src/lumino/models.py`, together with the thin endpoint wrappers of
`src/lumino/usage.py`, `src/lumino/billing.py`, `src/lumino/api_key.py` and
`src/lumino/dataset.py`. Machine integers are modelled as `Int`/`Nat`;
datetimes as explicit calendar structures; fallible code returns `Except`.
-/

/-- A JSON value, as produced by Python's `json` module and consumed by the
SDK's request/response pipeline. Objects keep field order, as Python dicts do. -/
inductive Json where
  | null : Json
  | bool (b : Bool) : Json
  | num (n : Int) : Json
  | str (s : String) : Json
  | arr (xs : List Json) : Json
  | obj (fields : List (String × Json)) : Json
  deriving Repr

/-- Field lookup on a JSON object (Python `dict.get`); `none` on non-objects
or missing keys. -/
def Json.get (j : Json) (key : String) : Option Json :=
  match j with
  | .obj fields => fields.lookup key
  | _ => none

/-- The SDK's error taxonomy, flattened into one inductive:
`clientError` is `LuminoClientError` (raised by local validators),
`valueError` and `attributeError` are the plain Python exceptions of those
names, `validationError` is pydantic's construction failure, and `apiError`
is `LuminoAPIError` (src/lumino/exceptions.py lines 25-39): the server-error
kind carrying an HTTP status, a message and optional structured details. -/
inductive SdkError where
  | clientError (message : String) : SdkError
  | valueError (message : String) : SdkError
  | attributeError (message : String) : SdkError
  | validationError (message : String) : SdkError
  | apiError (status : Nat) (message : String) (details : Option Json) : SdkError
  deriving Repr

/-- Does an error belong to the client-side (locally raised, pre-network)
kinds of the taxonomy, as opposed to the server-error kind? -/
def SdkError.isClientSide : SdkError → Bool
  | .clientError _ => true
  | .valueError _ => true
  | .attributeError _ => true
  | .validationError _ => true
  | .apiError _ _ _ => false

/-- The body of an HTTP response after the pipeline's read step: the pipeline
attempts JSON first and falls back to raw text (`jsonBody` keeps both the raw
text and its parse; `textBody` is the fallback for non-JSON bodies). -/
inductive HttpBody where
  | jsonBody (raw : String) (j : Json) : HttpBody
  | textBody (raw : String) : HttpBody
  deriving Repr

/-- The outcome of one dispatch at the transport layer: either an HTTP
response (status plus body) or a low-level transport failure such as a
connection error. -/
inductive Transport where
  | response (status : Nat) (body : HttpBody) : Transport
  | failure (message : String) : Transport
  deriving Repr

/-- The human message the pipeline extracts from an error response body: the
body's `message` field when the body is JSON and that field is a string,
else the raw body. -/
def errorMessage : HttpBody → String
  | .jsonBody raw j =>
      match j.get "message" with
      | some (.str m) => m
      | _ => raw
  | .textBody raw => raw

/-- The optional structured details the pipeline extracts from an error
response body: the body's `details` field when present. -/
def errorDetails : HttpBody → Option Json
  | .jsonBody _ j => j.get "details"
  | .textBody _ => none

namespace LuminoSDK

/-- Modelled from the spec: the current-revision low-level request function
`LuminoSDK._request`/`LuminoSDK.request` is missing from the source snapshot
(only its callers in the endpoint modules and its tests are present; the
snapshot's `sdk.py` is a superseded revision that delegates to
`raise_for_status`). Per the spec, on a response status >= 400 the pipeline
reads the body (attempting JSON first, falling back to raw text) and raises
the server-error kind carrying the status code, a human message (a `message`
field if present, else the raw body) and optional structured `details`; on
success it parses and returns the JSON body; low-level transport failures
(connection errors, malformed responses) are translated into the same
server-error kind. The spec leaves the status carried by a translated
transport failure unspecified; it is modelled as 0 here. -/
def request (t : Transport) : Except SdkError Json :=
  match t with
  | .failure msg => .error (.apiError 0 msg none)
  | .response status body =>
      if 400 ≤ status then
        .error (.apiError status (errorMessage body) (errorDetails body))
      else
        match body with
        | .jsonBody _ j => .ok j
        | .textBody raw => .error (.apiError 0 raw none)

end LuminoSDK

/-- Zero-pad the decimal rendering of `n` to `width` digits (Python `%02d`
and friends in `strftime`/`isoformat`). -/
def padNum (width n : Nat) : String :=
  let s := toString n
  String.mk (List.replicate (width - s.length) '0') ++ s

/-- A Python `datetime.datetime` value: proleptic Gregorian calendar fields
plus, for timezone-aware values, the UTC offset of its `tzinfo` in minutes
(`none` for naive datetimes). -/
structure PyDatetime where
  year : Nat
  month : Nat
  day : Nat
  hour : Nat
  minute : Nat
  second : Nat
  microsecond : Nat
  tzOffsetMinutes : Option Int
  deriving Repr, DecidableEq

/-- The fixed wire format of the `DateTime` annotated type
(src/lumino/models.py lines 109-112): `strftime` with
`%Y-%m-%dT%H:%M:%SZ`, applied by the pydantic `PlainSerializer` whenever
such a field is dumped. -/
def PyDatetime.strftimeWire (d : PyDatetime) : String :=
  padNum 4 d.year ++ "-" ++ padNum 2 d.month ++ "-" ++ padNum 2 d.day ++ "T" ++
  padNum 2 d.hour ++ ":" ++ padNum 2 d.minute ++ ":" ++ padNum 2 d.second ++ "Z"

/-- The UTC-offset suffix `datetime.isoformat` appends to aware values:
`+HH:MM` or `-HH:MM`; naive values get no suffix. -/
def isoOffsetSuffix : Option Int → String
  | none => ""
  | some o =>
      let sign := if 0 ≤ o then "+" else "-"
      sign ++ padNum 2 (o.natAbs / 60) ++ ":" ++ padNum 2 (o.natAbs % 60)

/-- Python `datetime.isoformat()`: `YYYY-MM-DDTHH:MM:SS`, a `.ffffff`
fragment only when the microsecond part is non-zero, and the UTC-offset
suffix for aware values. This is what `DateTimeEncoder.default`
(src/lumino/sdk.py lines 15-20) produces for `datetime` objects reaching
`json.dumps`. -/
def PyDatetime.isoformat (d : PyDatetime) : String :=
  padNum 4 d.year ++ "-" ++ padNum 2 d.month ++ "-" ++ padNum 2 d.day ++ "T" ++
  padNum 2 d.hour ++ ":" ++ padNum 2 d.minute ++ ":" ++ padNum 2 d.second ++
  (if d.microsecond = 0 then "" else "." ++ padNum 6 d.microsecond) ++
  isoOffsetSuffix d.tzOffsetMinutes

/-- Days since 1970-01-01 of a proleptic Gregorian civil date (the standard
days-from-civil computation underlying Python date/datetime ordinals). -/
def daysFromCivil (y m d : Int) : Int :=
  let yAdj := if m ≤ 2 then y - 1 else y
  let era := (if 0 ≤ yAdj then yAdj else yAdj - 399) / 400
  let yoe := yAdj - era * 400
  let mp := (m + 9) % 12
  let doy := (153 * mp + 2) / 5 + d - 1
  let doe := yoe * 365 + yoe / 4 - yoe / 100 + doy
  era * 146097 + doe - 719468

/-- The instant a `datetime` denotes, in microseconds since the epoch, after
`astimezone(timezone.utc)`: aware values use their own offset; naive values
are interpreted in the process-local timezone, whose UTC offset in minutes is
the `localOffset` parameter. `astimezone` changes representation, not the
instant, so the comparison in `_expiration_must_be_future` is exactly a
comparison of these instants. -/
def PyDatetime.utcInstant (localOffset : Int) (d : PyDatetime) : Int :=
  (86400 * daysFromCivil d.year d.month d.day
    + 3600 * (d.hour : Int) + 60 * (d.minute : Int) + (d.second : Int)) * 1000000
    + (d.microsecond : Int)
    - 60000000 * (d.tzOffsetMinutes.getD localOffset)

/-- The shared expiration validator `_expiration_must_be_future`
(src/lumino/models.py lines 115-118): raises `LuminoClientError` when the
value, brought to UTC, is at or before the current instant `nowInstant`
(microseconds since the epoch of `datetime.now()`), and returns the value
unchanged otherwise. -/
def expirationMustBeFuture (localOffset nowInstant : Int) (v : PyDatetime) :
    Except SdkError PyDatetime :=
  if v.utcInstant localOffset ≤ nowInstant then
    .error (.clientError "Expiration date must be in the future")
  else
    .ok v

/-- Characters admitted by the `NameField` regex character class
`[a-z0-9-]`. -/
def nameCharOk (c : Char) : Bool :=
  (97 ≤ c.toNat && c.toNat ≤ 122) || (48 ≤ c.toNat && c.toNat ≤ 57) || c.toNat = 45

/-- Whether a string matches the anchored `NameField` regex `[a-z0-9-]+`
between the anchors: non-empty and every character in the class. -/
def matchesNamePattern (s : String) : Bool :=
  !s.data.isEmpty && s.data.all nameCharOk

/-- The `NameField` constraint set (src/lumino/models.py lines 105-107):
pydantic checks the length bounds 1..255 and the anchored pattern on
construction, failing with a validation error otherwise. -/
def validateNameField (s : String) : Except SdkError String :=
  if s.data.length < 1 then
    .error (.validationError "String should have at least 1 character")
  else if 255 < s.data.length then
    .error (.validationError "String should have at most 255 characters")
  else if matchesNamePattern s then
    .ok s
  else
    .error (.validationError "String should match pattern")

/-- The description-field constraint (max length 1000) of `DatasetCreate`/
`DatasetUpdate` (src/lumino/models.py lines 208, 216). -/
def validateDescription (s : String) : Except SdkError String :=
  if 1000 < s.data.length then
    .error (.validationError "String should have at most 1000 characters")
  else
    .ok s

/-- The state of one optional field of a pydantic model: never supplied by
the caller (`unset`, tracked by pydantic's fields-set machinery), explicitly
supplied as Python `None`, or supplied with a value. -/
inductive FieldState (α : Type) where
  | unset : FieldState α
  | null : FieldState α
  | val (a : α) : FieldState α
  deriving Repr, DecidableEq

/-- The entries a field contributes to a `dict(exclude_unset=True)` dump:
nothing when the field was never set, an explicit JSON null when set to
`None`, and the rendered value otherwise. -/
def FieldState.dumpEntry (key : String) (render : α → Json) :
    FieldState α → List (String × Json)
  | .unset => []
  | .null => [(key, Json.null)]
  | .val a => [(key, render a)]

/-- The `ApiKeyCreate` schema (src/lumino/models.py lines 155-165): a
`NameField` name and a required `expires_at` of the `DateTime` annotated
type, guarded by the `expiration_must_be_future` field validator. -/
structure ApiKeyCreate where
  name : String
  expires_at : PyDatetime
  deriving Repr, DecidableEq

/-- Construction of `ApiKeyCreate`: the `NameField` constraints run on
`name` and the expiration validator on `expires_at`. `NameField` failures
are `ValueError`s that pydantic collects into one validation error, while
the `LuminoClientError` raised by the expiration validator is not a
`ValueError` and propagates out of construction immediately, so it takes
precedence when both fields are bad. -/
def ApiKeyCreate.make (localOffset nowInstant : Int) (name : String)
    (expires_at : PyDatetime) : Except SdkError ApiKeyCreate :=
  match expirationMustBeFuture localOffset nowInstant expires_at with
  | .error e => .error e
  | .ok d =>
      match validateNameField name with
      | .error e => .error e
      | .ok n => .ok ⟨n, d⟩

/-- The `ApiKeyUpdate` schema (src/lumino/models.py lines 168-178): an
optional `NameField` name and an optional `expires_at` typed plain
`datetime | None` (not the `DateTime` annotated type), guarded by the same
`expiration_must_be_future` field validator. -/
structure ApiKeyUpdate where
  name : FieldState String
  expires_at : FieldState PyDatetime
  deriving Repr, DecidableEq

/-- Construction of `ApiKeyUpdate`. A field left unset keeps its default and
skips its validator (pydantic does not validate defaults here). An explicit
`None` passes the `str | None` type check for `name`; for `expires_at` the
field validator still runs and evaluates `None.astimezone(...)`, which
raises `AttributeError` (message elided to avoid quoting), not the
`LuminoClientError` the validator raises for past dates. As in
`ApiKeyCreate.make`, the non-`ValueError` exceptions escaping the expiration
validator propagate immediately and so take precedence over collected
`NameField` errors. -/
def ApiKeyUpdate.make (localOffset nowInstant : Int) (name : FieldState String)
    (expires_at : FieldState PyDatetime) : Except SdkError ApiKeyUpdate :=
  let expRes : Except SdkError (FieldState PyDatetime) :=
    match expires_at with
    | .unset => .ok .unset
    | .null => .error (.attributeError "NoneType object has no attribute astimezone")
    | .val v => (expirationMustBeFuture localOffset nowInstant v).map .val
  match expRes with
  | .error e => .error e
  | .ok d =>
      let nameRes : Except SdkError (FieldState String) :=
        match name with
        | .unset => .ok .unset
        | .null => .ok .null
        | .val s => (validateNameField s).map .val
      match nameRes with
      | .error e => .error e
      | .ok n => .ok ⟨n, d⟩

/-- The `DatasetCreate` schema (src/lumino/models.py lines 203-208): a
`NameField` name and an optional description of max length 1000. -/
structure DatasetCreate where
  name : String
  description : Option String
  deriving Repr, DecidableEq

/-- Construction of `DatasetCreate`, validating name then description (both
constraint failures are pydantic-collected; the first in declaration order
is reported here). -/
def DatasetCreate.make (name : String) (description : Option String) :
    Except SdkError DatasetCreate :=
  match validateNameField name with
  | .error e => .error e
  | .ok n =>
      match description with
      | none => .ok ⟨n, none⟩
      | some d =>
          match validateDescription d with
          | .error e => .error e
          | .ok d => .ok ⟨n, some d⟩

/-- The `DatasetUpdate` schema (src/lumino/models.py lines 211-216): optional
`NameField` name and optional description, both tracked for unset-ness. -/
structure DatasetUpdate where
  name : FieldState String
  description : FieldState String
  deriving Repr, DecidableEq

/-- Construction of `DatasetUpdate`: set values are validated, `None` passes
the optional type, unset fields skip validation. -/
def DatasetUpdate.make (name description : FieldState String) :
    Except SdkError DatasetUpdate :=
  let nameRes : Except SdkError (FieldState String) :=
    match name with
    | .unset => .ok .unset
    | .null => .ok .null
    | .val s => (validateNameField s).map .val
  match nameRes with
  | .error e => .error e
  | .ok n =>
      let descRes : Except SdkError (FieldState String) :=
        match description with
        | .unset => .ok .unset
        | .null => .ok .null
        | .val s => (validateDescription s).map .val
      match descRes with
      | .error e => .error e
      | .ok d => .ok ⟨n, d⟩

/-- The `UserUpdate` schema (src/lumino/models.py lines 134-138): a single
optional name with length bounds 1..255 and no pattern constraint. -/
structure UserUpdate where
  name : FieldState String
  deriving Repr, DecidableEq

/-- The wire body built by `create_api_key` (`api_key_create.dict()` then
`json.dumps(..., cls=DateTimeEncoder)`, src/lumino/sdk.py line 129 and
src/lumino/api_key.py line 51): the `DateTime` annotated `expires_at` is
already a string in the fixed `%Y-%m-%dT%H:%M:%SZ` format after the
pydantic dump, so the JSON encoder passes it through. -/
def ApiKeyCreate.body (k : ApiKeyCreate) : List (String × Json) :=
  [("name", Json.str k.name), ("expires_at", Json.str k.expires_at.strftimeWire)]

/-- The wire body built by `update_api_key`
(`api_key_update.dict(exclude_unset=True)` then
`json.dumps(..., cls=DateTimeEncoder)`, src/lumino/sdk.py lines 165-178 and
src/lumino/api_key.py lines 93-114): unset fields are omitted, and a set
`expires_at`, being a plain `datetime` after the dump, is rendered by
`DateTimeEncoder.default` via `isoformat()`. -/
def ApiKeyUpdate.dictExcludeUnset (u : ApiKeyUpdate) : List (String × Json) :=
  u.name.dumpEntry "name" Json.str ++
  u.expires_at.dumpEntry "expires_at" (fun d => Json.str d.isoformat)

/-- The wire body built by `update_dataset`
(`dataset_update.dict(exclude_unset=True)`, src/lumino/dataset.py lines
107-128): unset fields are omitted. -/
def DatasetUpdate.dictExcludeUnset (u : DatasetUpdate) : List (String × Json) :=
  u.name.dumpEntry "name" Json.str ++ u.description.dumpEntry "description" Json.str

/-- The wire body built by `update_current_user`
(`user_update.dict(exclude_unset=True)`, src/lumino/user.py lines 43-63). -/
def UserUpdate.dictExcludeUnset (u : UserUpdate) : List (String × Json) :=
  u.name.dumpEntry "name" Json.str

/-- The fully assembled, not yet dispatched HTTP call an endpoint method
hands to the request pipeline: method, path suffix, query parameters and
optional JSON body. -/
structure PendingRequest where
  method : String
  path : String
  params : List (String × String)
  body : Option (List (String × Json))
  deriving Repr

namespace ApiKeyEndpoint

/-- The call built by `ApiKeyEndpoint.create_api_key`
(src/lumino/api_key.py lines 36-52): POST /api-keys with the dumped body. -/
def create_api_key (k : ApiKeyCreate) : PendingRequest :=
  ⟨"POST", "/api-keys", [], some k.body⟩

/-- The call built by `ApiKeyEndpoint.update_api_key`
(src/lumino/api_key.py lines 93-114): PATCH /api-keys/key_name with the
exclude-unset body. -/
def update_api_key (key_name : String) (u : ApiKeyUpdate) : PendingRequest :=
  ⟨"PATCH", "/api-keys/" ++ key_name, [], some u.dictExcludeUnset⟩

end ApiKeyEndpoint

/-- The complete client path for creating an API key: schema construction at
call time (validators included) followed, only on success, by assembly of
the network call. A validation failure yields `Except.error`, which carries
no `PendingRequest`: the request is never dispatched. -/
def createApiKeyCall (localOffset nowInstant : Int) (name : String)
    (expires_at : PyDatetime) : Except SdkError PendingRequest :=
  (ApiKeyCreate.make localOffset nowInstant name expires_at).map
    ApiKeyEndpoint.create_api_key

/-- The complete client path for updating an API key: schema construction
followed, only on success, by assembly of the network call. -/
def updateApiKeyCall (localOffset nowInstant : Int) (key_name : String)
    (name : FieldState String) (expires_at : FieldState PyDatetime) :
    Except SdkError PendingRequest :=
  (ApiKeyUpdate.make localOffset nowInstant name expires_at).map
    (ApiKeyEndpoint.update_api_key key_name)

/-- A Python `datetime.date` value. -/
structure Date where
  year : Nat
  month : Nat
  day : Nat
  deriving Repr, DecidableEq

/-- Python comparison of `date` objects: lexicographic on
(year, month, day). -/
def Date.lt (a b : Date) : Bool :=
  a.year < b.year ||
  (a.year = b.year && (a.month < b.month ||
    (a.month = b.month && a.day < b.day)))

/-- Python `date.isoformat()`: `YYYY-MM-DD`. -/
def Date.isoformat (d : Date) : String :=
  padNum 4 d.year ++ "-" ++ padNum 2 d.month ++ "-" ++ padNum 2 d.day

namespace UsageEndpoint

/-- `UsageEndpoint.get_total_cost` (src/lumino/usage.py lines 29-53) up to
its network dispatch: when `end_date < start_date` it raises `ValueError`
before any network call; otherwise it assembles GET /usage/total-cost with
both dates as ISO query parameters. -/
def get_total_cost (start_date end_date : Date) : Except SdkError PendingRequest :=
  if Date.lt end_date start_date then
    .error (.valueError "end_date must be equal to or after start_date")
  else
    .ok ⟨"GET", "/usage/total-cost",
      [("start_date", start_date.isoformat), ("end_date", end_date.isoformat)],
      none⟩

/-- `UsageEndpoint.list_usage_records` (src/lumino/usage.py lines 55-92) up
to its network dispatch: the same `ValueError` guard, then GET
/usage/records with dates, pagination, and — only when `service_name` is
truthy in Python (present and non-empty) — a `service_name` filter. -/
def list_usage_records (start_date end_date : Date) (page items_per_page : Nat)
    (service_name : Option String) : Except SdkError PendingRequest :=
  if Date.lt end_date start_date then
    .error (.valueError "end_date must be equal to or after start_date")
  else
    let base := [("start_date", start_date.isoformat),
                 ("end_date", end_date.isoformat),
                 ("page", toString page),
                 ("items_per_page", toString items_per_page)]
    let params := match service_name with
      | some s => if s = "" then base else base ++ [("service_name", s)]
      | none => base
    .ok ⟨"GET", "/usage/records", params, none⟩

end UsageEndpoint

namespace BillingEndpoint

/-- `BillingEndpoint.get_credit_history` (src/lumino/billing.py lines 28-64)
up to its network dispatch: when `start_date > end_date` it raises
`LuminoClientError` before any network call; otherwise it assembles GET
/billing/credit-history with dates and pagination. -/
def get_credit_history (start_date end_date : Date) (page items_per_page : Nat) :
    Except SdkError PendingRequest :=
  if Date.lt end_date start_date then
    .error (.clientError "end_date must be equal to or after start_date")
  else
    .ok ⟨"GET", "/billing/credit-history",
      [("start_date", start_date.isoformat), ("end_date", end_date.isoformat),
       ("page", toString page), ("items_per_page", toString items_per_page)],
      none⟩

end BillingEndpoint

/-- `ApiKeyStatus` (src/lumino/models.py lines 18-22). -/
inductive ApiKeyStatus where
  | ACTIVE | EXPIRED | REVOKED
  deriving Repr, DecidableEq

/-- Value lookup of the `ApiKeyStatus` str-enum, as performed when pydantic
deserializes the `status` field of `ApiKeyResponse`: exactly the declared
member values map to members; anything else is rejected. -/
def ApiKeyStatus.ofString : String → Option ApiKeyStatus
  | "ACTIVE" => some .ACTIVE
  | "EXPIRED" => some .EXPIRED
  | "REVOKED" => some .REVOKED
  | _ => none

/-- `UserStatus` (src/lumino/models.py lines 12-15). -/
inductive UserStatus where
  | ACTIVE | INACTIVE
  deriving Repr, DecidableEq

/-- Value lookup of the `UserStatus` str-enum. -/
def UserStatus.ofString : String → Option UserStatus
  | "ACTIVE" => some .ACTIVE
  | "INACTIVE" => some .INACTIVE
  | _ => none

/-- `DatasetStatus` (src/lumino/models.py lines 25-30). -/
inductive DatasetStatus where
  | UPLOADED | VALIDATED | ERROR | DELETED
  deriving Repr, DecidableEq

/-- Value lookup of the `DatasetStatus` str-enum. -/
def DatasetStatus.ofString : String → Option DatasetStatus
  | "UPLOADED" => some .UPLOADED
  | "VALIDATED" => some .VALIDATED
  | "ERROR" => some .ERROR
  | "DELETED" => some .DELETED
  | _ => none

/-- `FineTuningJobStatus` (src/lumino/models.py lines 33-42). -/
inductive FineTuningJobStatus where
  | NEW | QUEUED | RUNNING | STOPPING | STOPPED | COMPLETED | FAILED | DELETED
  deriving Repr, DecidableEq

/-- Value lookup of the `FineTuningJobStatus` str-enum. -/
def FineTuningJobStatus.ofString : String → Option FineTuningJobStatus
  | "NEW" => some .NEW
  | "QUEUED" => some .QUEUED
  | "RUNNING" => some .RUNNING
  | "STOPPING" => some .STOPPING
  | "STOPPED" => some .STOPPED
  | "COMPLETED" => some .COMPLETED
  | "FAILED" => some .FAILED
  | "DELETED" => some .DELETED
  | _ => none

/-- `FineTuningJobType` (src/lumino/models.py lines 45-49). -/
inductive FineTuningJobType where
  | FULL | LORA | QLORA
  deriving Repr, DecidableEq

/-- Value lookup of the `FineTuningJobType` str-enum. -/
def FineTuningJobType.ofString : String → Option FineTuningJobType
  | "FULL" => some .FULL
  | "LORA" => some .LORA
  | "QLORA" => some .QLORA
  | _ => none

/-- `BaseModelStatus` (src/lumino/models.py lines 52-56). -/
inductive BaseModelStatus where
  | ACTIVE | INACTIVE | DEPRECATED
  deriving Repr, DecidableEq

/-- Value lookup of the `BaseModelStatus` str-enum. -/
def BaseModelStatus.ofString : String → Option BaseModelStatus
  | "ACTIVE" => some .ACTIVE
  | "INACTIVE" => some .INACTIVE
  | "DEPRECATED" => some .DEPRECATED
  | _ => none

/-- `UsageUnit` (src/lumino/models.py lines 59-63). -/
inductive UsageUnit where
  | TOKEN
  deriving Repr, DecidableEq

/-- Value lookup of the `UsageUnit` str-enum. -/
def UsageUnit.ofString : String → Option UsageUnit
  | "TOKEN" => some .TOKEN
  | _ => none

/-- `ServiceName` (src/lumino/models.py lines 66-70). -/
inductive ServiceName where
  | FINE_TUNING_JOB
  deriving Repr, DecidableEq

/-- Value lookup of the `ServiceName` str-enum. -/
def ServiceName.ofString : String → Option ServiceName
  | "FINE_TUNING_JOB" => some .FINE_TUNING_JOB
  | _ => none

/-- `BillingTransactionType` (src/lumino/models.py lines 73-80). -/
inductive BillingTransactionType where
  | MANUAL_ADJUSTMENT | NEW_USER_CREDIT | FINE_TUNING_JOB | STRIPE_CHECKOUT
  deriving Repr, DecidableEq

/-- Value lookup of the `BillingTransactionType` str-enum. -/
def BillingTransactionType.ofString : String → Option BillingTransactionType
  | "MANUAL_ADJUSTMENT" => some .MANUAL_ADJUSTMENT
  | "NEW_USER_CREDIT" => some .NEW_USER_CREDIT
  | "FINE_TUNING_JOB" => some .FINE_TUNING_JOB
  | "STRIPE_CHECKOUT" => some .STRIPE_CHECKOUT
  | _ => none

/-- `FineTunedModelStatus` (src/lumino/models.py lines 83-86). -/
inductive FineTunedModelStatus where
  | ACTIVE | DELETED
  deriving Repr, DecidableEq

/-- Value lookup of the `FineTunedModelStatus` str-enum. -/
def FineTunedModelStatus.ofString : String → Option FineTunedModelStatus
  | "ACTIVE" => some .ACTIVE
  | "DELETED" => some .DELETED
  | _ => none

/-- `ComputeProvider` (src/lumino/models.py lines 89-92). -/
inductive ComputeProvider where
  | GCP | LUM
  deriving Repr, DecidableEq

/-- Value lookup of the `ComputeProvider` str-enum. -/
def ComputeProvider.ofString : String → Option ComputeProvider
  | "GCP" => some .GCP
  | "LUM" => some .LUM
  | _ => none

/-- Deserialization of one enum-typed response field: a recognized value
yields the matching member, an unrecognized value fails with a pydantic
validation error rather than coercing to a default or passing the raw
string through. -/
def parseEnumField (ofString : String → Option α) (s : String) :
    Except SdkError α :=
  match ofString s with
  | some m => .ok m
  | none => .error (.validationError ("Input should be a valid enumeration member, got " ++ s))

/-- `FineTuningJobParameters` (src/lumino/models.py lines 235-241). The
`lr` float is modelled as an exact rational; the literal `3e-4` is the
rational 3/10000. -/
structure FineTuningJobParameters where
  batch_size : Int
  shuffle : Bool
  num_epochs : Int
  lr : ℚ
  seed : Option Int
  deriving Repr, DecidableEq

/-- The field defaults of `FineTuningJobParameters`: constructing the model
with no arguments fills every field from its `Field(default=...)`. -/
def FineTuningJobParameters.defaults : FineTuningJobParameters :=
  ⟨2, true, 1, 3 / 10000, none⟩

/-- The declared range constraints of `FineTuningJobParameters`:
`batch_size` in (0, 8], `num_epochs` in (0, 10], `lr` in (0, 1], and
`seed` absent or >= 0. -/
def FineTuningJobParameters.inRange (p : FineTuningJobParameters) : Prop :=
  0 < p.batch_size ∧ p.batch_size ≤ 8 ∧
  0 < p.num_epochs ∧ p.num_epochs ≤ 10 ∧
  0 < p.lr ∧ p.lr ≤ 1 ∧
  (p.seed = none ∨ ∃ s, p.seed = some s ∧ 0 ≤ s)

/-! Helper lemmas shared by the claim theorems. -/

/-- The anchored `NameField` pattern holds exactly of non-empty strings all
of whose characters lie in the class `[a-z0-9-]`. -/
theorem matchesNamePattern_iff (s : String) :
    matchesNamePattern s = true ↔ s.data ≠ [] ∧ ∀ c ∈ s.data, nameCharOk c = true := by
  unfold matchesNamePattern
  simp [List.all_eq_true, List.isEmpty_iff]

/-- `validateNameField` succeeds exactly on strings within the length bounds
that match the pattern. -/
theorem validateNameField_ok_iff (s : String) :
    validateNameField s = .ok s ↔
      (1 ≤ s.data.length ∧ s.data.length ≤ 255 ∧ matchesNamePattern s = true) := by
  unfold validateNameField
  split
  · simp_all
  · split
    · simp_all
    · split
      · simp_all
        omega
      · simp_all

/-- On any string violating the `NameField` constraints, `validateNameField`
fails with a validation error. -/
theorem validateNameField_error (s : String)
    (h : ¬(1 ≤ s.data.length ∧ s.data.length ≤ 255 ∧ matchesNamePattern s = true)) :
    ∃ msg, validateNameField s = .error (.validationError msg) := by
  unfold validateNameField
  split
  · exact ⟨_, rfl⟩
  · split
    · exact ⟨_, rfl⟩
    · split
      · exact absurd ⟨by omega, by omega, by assumption⟩ h
      · exact ⟨_, rfl⟩

/-- `parseEnumField` succeeds exactly when the underlying enum value lookup
succeeds. -/
theorem parseEnumField_ok_iff (f : String → Option α) (s : String) :
    (∃ m, parseEnumField f s = .ok m) ↔ (f s).isSome := by
  unfold parseEnumField
  cases h : f s <;> simp

/-- `parseEnumField` fails with a validation error on any value outside the
enum. -/
theorem parseEnumField_error_of_none (f : String → Option α) (s : String)
    (h : f s = none) :
    ∃ msg, parseEnumField f s = .error (.validationError msg) := by
  unfold parseEnumField
  rw [h]
  exact ⟨_, rfl⟩

/-- C1: for every request whose response has HTTP status >= 400, the request
pipeline reads the body (JSON first, raw-text fallback) and raises the
server-error kind carrying the status code, the human message from the
body's `message` field when present (else the raw body), and the optional
structured details; in particular a mocked 404 response with body
containing `message` equal to "not found" yields a server error with
status 404 and message "not found". -/
theorem c1_request_error_mapping (status : Nat) (body : HttpBody)
    (h : 400 ≤ status) :
    LuminoSDK.request (.response status body) =
      .error (.apiError status (errorMessage body) (errorDetails body)) ∧
    (∀ raw j m, j.get "message" = some (Json.str m) →
      errorMessage (.jsonBody raw j) = m) ∧
    (∀ raw j, j.get "message" = none → errorMessage (.jsonBody raw j) = raw) ∧
    (∀ raw, errorMessage (.textBody raw) = raw) ∧
    LuminoSDK.request (.response 404
        (.jsonBody "x" (Json.obj [("message", Json.str "not found")]))) =
      .error (.apiError 404 "not found" none) := by
  refine ⟨?_, ?_, ?_, fun raw => rfl, rfl⟩
  · simp [LuminoSDK.request, h]
  · intro raw j m hm; simp [errorMessage, hm]
  · intro raw j hm; simp [errorMessage, hm]

/-- Witness for C1 at a concrete 404 response with a raw-text body. -/
theorem c1_request_error_mapping_witness :
    LuminoSDK.request (.response 404 (.textBody "oops")) =
      .error (.apiError 404 "oops" none) :=
  (c1_request_error_mapping 404 (.textBody "oops") (by decide)).1

/-- C2: every low-level transport failure during a request (connection
error, or a malformed non-JSON body on an otherwise successful response) is
raised as the same server-error kind as a >= 400 status, and every error
the pipeline can produce is of that kind, so no transport-specific
exception reaches the caller. -/
theorem c2_transport_error_translation :
    (∀ msg, ∃ st m d, LuminoSDK.request (.failure msg) =
      .error (.apiError st m d)) ∧
    (∀ status raw, status < 400 →
      ∃ st m d, LuminoSDK.request (.response status (.textBody raw)) =
        .error (.apiError st m d)) ∧
    (∀ t e, LuminoSDK.request t = .error e → ∃ st m d, e = .apiError st m d) := by
  refine ⟨fun msg => ⟨0, msg, none, rfl⟩, ?_, ?_⟩
  · intro status raw h
    exact ⟨0, raw, none, by simp [LuminoSDK.request, Nat.not_le.mpr h]⟩
  · intro t e h
    cases t with
    | failure msg =>
        simp only [LuminoSDK.request, Except.error.injEq] at h
        exact ⟨0, msg, none, h.symm⟩
    | response status body =>
        by_cases hs : 400 ≤ status
        · simp only [LuminoSDK.request, if_pos hs, Except.error.injEq] at h
          exact ⟨status, errorMessage body, errorDetails body, h.symm⟩
        · cases body with
          | jsonBody raw j =>
              simp [LuminoSDK.request, if_neg hs] at h
          | textBody raw =>
              simp only [LuminoSDK.request, if_neg hs, Except.error.injEq] at h
              exact ⟨0, raw, none, h.symm⟩

/-- Witness for C2 at a concrete connection failure and a concrete
malformed 200 response. -/
theorem c2_transport_error_translation_witness :
    (∃ st m d, LuminoSDK.request (.failure "Connection refused") =
      .error (.apiError st m d)) ∧
    (∃ st m d, LuminoSDK.request (.response 200 (.textBody "not json")) =
      .error (.apiError st m d)) :=
  ⟨c2_transport_error_translation.1 "Connection refused",
   c2_transport_error_translation.2.1 200 "not json" (by decide)⟩

/-- C3: for every `expires_at` whose instant is at or before the current
time (compared in UTC), constructing `ApiKeyCreate` (and `ApiKeyUpdate`
with `expires_at` set) fails with the client validation error, and the
create call yields no request to dispatch; for every `expires_at` strictly
after the current time, construction succeeds. -/
theorem c3_expiration_validation (localOffset nowInstant : Int) (name : String)
    (v : PyDatetime) (hname : validateNameField name = .ok name) :
    (v.utcInstant localOffset ≤ nowInstant →
      ApiKeyCreate.make localOffset nowInstant name v =
        .error (.clientError "Expiration date must be in the future") ∧
      createApiKeyCall localOffset nowInstant name v =
        .error (.clientError "Expiration date must be in the future") ∧
      ApiKeyUpdate.make localOffset nowInstant .unset (.val v) =
        .error (.clientError "Expiration date must be in the future")) ∧
    (nowInstant < v.utcInstant localOffset →
      ApiKeyCreate.make localOffset nowInstant name v = .ok ⟨name, v⟩ ∧
      ApiKeyUpdate.make localOffset nowInstant .unset (.val v) =
        .ok ⟨.unset, .val v⟩) := by
  constructor
  · intro h
    refine ⟨?_, ?_, ?_⟩ <;>
      simp [ApiKeyCreate.make, createApiKeyCall, ApiKeyUpdate.make,
        expirationMustBeFuture, Except.map, h]
  · intro h
    have h' : ¬ (v.utcInstant localOffset ≤ nowInstant) := by omega
    refine ⟨?_, ?_⟩ <;>
      simp [ApiKeyCreate.make, ApiKeyUpdate.make, expirationMustBeFuture,
        Except.map, h', hname]

/-- Witness for C3: at the epoch with now equal to the epoch instant the
creation call fails with the client error and dispatches nothing; with now
one microsecond earlier, construction succeeds. -/
theorem c3_expiration_validation_witness :
    createApiKeyCall 0 0 "test-key" (PyDatetime.mk 1970 1 1 0 0 0 0 (some 0)) =
      .error (.clientError "Expiration date must be in the future") ∧
    ApiKeyCreate.make 0 (-1) "test-key" (PyDatetime.mk 1970 1 1 0 0 0 0 (some 0)) =
      .ok ⟨"test-key", PyDatetime.mk 1970 1 1 0 0 0 0 (some 0)⟩ :=
  ⟨((c3_expiration_validation 0 0 "test-key" _ (by rfl)).1 (by decide)).2.1,
   ((c3_expiration_validation 0 (-1) "test-key" _ (by rfl)).2 (by decide)).1⟩

/-- C4: for every pair with `end_date < start_date`, the usage and billing
list operations (`get_total_cost`, `list_usage_records`,
`get_credit_history`) fail with a client-side error and produce no request
to dispatch; for every pair with `end_date >= start_date` the call proceeds
to the network. -/
theorem c4_date_range_guard (start_date end_date : Date) (page items_per_page : Nat)
    (service_name : Option String) :
    (Date.lt end_date start_date = true →
      UsageEndpoint.get_total_cost start_date end_date =
        .error (.valueError "end_date must be equal to or after start_date") ∧
      UsageEndpoint.list_usage_records start_date end_date page items_per_page
          service_name =
        .error (.valueError "end_date must be equal to or after start_date") ∧
      BillingEndpoint.get_credit_history start_date end_date page items_per_page =
        .error (.clientError "end_date must be equal to or after start_date") ∧
      (SdkError.valueError "end_date must be equal to or after start_date").isClientSide
        = true ∧
      (SdkError.clientError "end_date must be equal to or after start_date").isClientSide
        = true) ∧
    (Date.lt end_date start_date = false →
      (∃ r, UsageEndpoint.get_total_cost start_date end_date = .ok r) ∧
      (∃ r, UsageEndpoint.list_usage_records start_date end_date page items_per_page
          service_name = .ok r) ∧
      (∃ r, BillingEndpoint.get_credit_history start_date end_date page items_per_page
          = .ok r)) := by
  constructor
  · intro h
    refine ⟨?_, ?_, ?_, rfl, rfl⟩ <;>
      simp [UsageEndpoint.get_total_cost, UsageEndpoint.list_usage_records,
        BillingEndpoint.get_credit_history, h]
  · intro h
    refine ⟨?_, ?_, ?_⟩ <;>
      simp [UsageEndpoint.get_total_cost, UsageEndpoint.list_usage_records,
        BillingEndpoint.get_credit_history, h]

/-- Witness for C4 at concrete date pairs in both directions. -/
theorem c4_date_range_guard_witness :
    BillingEndpoint.get_credit_history (Date.mk 2024 1 2) (Date.mk 2024 1 1) 1 20 =
      .error (.clientError "end_date must be equal to or after start_date") ∧
    (∃ r, UsageEndpoint.get_total_cost (Date.mk 2024 1 1) (Date.mk 2024 1 2) =
      .ok r) :=
  ⟨((c4_date_range_guard (Date.mk 2024 1 2) (Date.mk 2024 1 1) 1 20 none).1
      (by decide)).2.2.1,
   ((c4_date_range_guard (Date.mk 2024 1 1) (Date.mk 2024 1 2) 1 20 none).2
      (by decide)).1⟩

/-- C5 counterexample: the claim that every datetime-valued field of a
structured request body is rendered exactly as `%Y-%m-%dT%H:%M:%SZ`,
including `ApiKeyUpdate.expires_at`, is false: `ApiKeyUpdate.expires_at` is
typed plain `datetime`, so the dumped value reaches `DateTimeEncoder`,
which renders `isoformat()`; for the aware value 2024-03-01T00:00:00+00:00
the wire string ends in "+00:00", not "Z". -/
theorem c5_wire_format_counterexample :
    (ApiKeyUpdate.mk .unset
        (.val (PyDatetime.mk 2024 3 1 0 0 0 0 (some 0)))).dictExcludeUnset =
      [("expires_at", Json.str "2024-03-01T00:00:00+00:00")] ∧
    "2024-03-01T00:00:00+00:00" ≠
      (PyDatetime.mk 2024 3 1 0 0 0 0 (some 0)).strftimeWire := by
  exact ⟨rfl, by decide⟩

/-- C5 amended: datetime fields declared with the `DateTime` annotated type
(such as `ApiKeyCreate.expires_at`) are rendered on the wire exactly in the
fixed `%Y-%m-%dT%H:%M:%SZ` format, while `ApiKeyUpdate.expires_at`, typed
plain `datetime`, is rendered by the fallback `DateTimeEncoder` via
`isoformat()` and so does not carry the fixed format's `Z` suffix. -/
theorem c5_wire_format_amended (k : ApiKeyCreate) (u : ApiKeyUpdate)
    (d : PyDatetime) (h : u.expires_at = .val d) :
    k.body.lookup "expires_at" = some (Json.str k.expires_at.strftimeWire) ∧
    u.dictExcludeUnset.lookup "expires_at" = some (Json.str d.isoformat) := by
  obtain ⟨n, e⟩ := u
  simp only at h
  subst h
  refine ⟨rfl, ?_⟩
  cases n <;>
    simp [ApiKeyUpdate.dictExcludeUnset, FieldState.dumpEntry, List.lookup]

/-- Witness for C5 at a concrete create schema and update schema. -/
theorem c5_wire_format_amended_witness :
    (ApiKeyCreate.mk "test-key"
        (PyDatetime.mk 2025 1 1 0 0 0 0 (some 0))).body.lookup "expires_at" =
      some (Json.str "2025-01-01T00:00:00Z") ∧
    (ApiKeyUpdate.mk .unset
        (.val (PyDatetime.mk 2025 1 1 0 0 0 0 (some 0)))).dictExcludeUnset.lookup
        "expires_at" =
      some (Json.str "2025-01-01T00:00:00+00:00") :=
  c5_wire_format_amended
    (ApiKeyCreate.mk "test-key" (PyDatetime.mk 2025 1 1 0 0 0 0 (some 0)))
    (ApiKeyUpdate.mk .unset (.val (PyDatetime.mk 2025 1 1 0 0 0 0 (some 0))))
    (PyDatetime.mk 2025 1 1 0 0 0 0 (some 0)) rfl

/-- C6: for every update-type schema instance (`ApiKeyUpdate`,
`DatasetUpdate`, `UserUpdate`) in which a field was never set, the
serialized `exclude_unset` body omits that field's key entirely; an
`ApiKeyUpdate` with only `name` set produces a body with no `expires_at`
key. -/
theorem c6_exclude_unset_omission (u1 : ApiKeyUpdate) (u2 : DatasetUpdate)
    (u3 : UserUpdate) :
    (u1.expires_at = .unset → "expires_at" ∉ u1.dictExcludeUnset.map Prod.fst) ∧
    (u1.name = .unset → "name" ∉ u1.dictExcludeUnset.map Prod.fst) ∧
    (u2.description = .unset → "description" ∉ u2.dictExcludeUnset.map Prod.fst) ∧
    (u2.name = .unset → "name" ∉ u2.dictExcludeUnset.map Prod.fst) ∧
    (u3.name = .unset → u3.dictExcludeUnset = []) ∧
    (ApiKeyUpdate.mk (.val "new-name") .unset).dictExcludeUnset =
      [("name", Json.str "new-name")] := by
  obtain ⟨n1, e1⟩ := u1
  obtain ⟨n2, d2⟩ := u2
  obtain ⟨n3⟩ := u3
  refine ⟨?_, ?_, ?_, ?_, ?_, rfl⟩ <;> (intro h; simp only at h; subst h)
  · cases n1 <;>
      simp [ApiKeyUpdate.dictExcludeUnset, FieldState.dumpEntry]
  · cases e1 <;>
      simp [ApiKeyUpdate.dictExcludeUnset, FieldState.dumpEntry]
  · cases n2 <;>
      simp [DatasetUpdate.dictExcludeUnset, FieldState.dumpEntry]
  · cases d2 <;>
      simp [DatasetUpdate.dictExcludeUnset, FieldState.dumpEntry]
  · simp [UserUpdate.dictExcludeUnset, FieldState.dumpEntry]

/-- Witness for C6 at a concrete `ApiKeyUpdate` with only `name` set. -/
theorem c6_exclude_unset_omission_witness :
    "expires_at" ∉
      (ApiKeyUpdate.mk (.val "new-name") .unset).dictExcludeUnset.map Prod.fst :=
  (c6_exclude_unset_omission (ApiKeyUpdate.mk (.val "new-name") .unset)
    (DatasetUpdate.mk .unset .unset) (UserUpdate.mk .unset)).1 rfl

/-- C7: for every status-typed field of a response model, a server value in
the documented closed set deserializes to the matching enum member, and any
string outside that set fails deserialization rather than coercing to a
default or passing the raw string through; `ApiKeyResponse.status` accepts
exactly ACTIVE, EXPIRED, REVOKED. -/
theorem c7_enum_fidelity :
    (∀ s m, ApiKeyStatus.ofString s = some m ↔
      ((s = "ACTIVE" ∧ m = .ACTIVE) ∨ (s = "EXPIRED" ∧ m = .EXPIRED) ∨
       (s = "REVOKED" ∧ m = .REVOKED))) ∧
    (∀ s, (∃ m, parseEnumField ApiKeyStatus.ofString s = .ok m) ↔
      (s = "ACTIVE" ∨ s = "EXPIRED" ∨ s = "REVOKED")) ∧
    (∀ s, ApiKeyStatus.ofString s = none →
      ∃ msg, parseEnumField ApiKeyStatus.ofString s =
        .error (.validationError msg)) ∧
    (∀ s, (UserStatus.ofString s).isSome ↔ (s = "ACTIVE" ∨ s = "INACTIVE")) ∧
    (∀ s, (DatasetStatus.ofString s).isSome ↔
      (s = "UPLOADED" ∨ s = "VALIDATED" ∨ s = "ERROR" ∨ s = "DELETED")) ∧
    (∀ s, (FineTuningJobStatus.ofString s).isSome ↔
      (s = "NEW" ∨ s = "QUEUED" ∨ s = "RUNNING" ∨ s = "STOPPING" ∨
       s = "STOPPED" ∨ s = "COMPLETED" ∨ s = "FAILED" ∨ s = "DELETED")) ∧
    (∀ s, (FineTuningJobType.ofString s).isSome ↔
      (s = "FULL" ∨ s = "LORA" ∨ s = "QLORA")) ∧
    (∀ s, (BaseModelStatus.ofString s).isSome ↔
      (s = "ACTIVE" ∨ s = "INACTIVE" ∨ s = "DEPRECATED")) ∧
    (∀ s, (UsageUnit.ofString s).isSome ↔ s = "TOKEN") ∧
    (∀ s, (ServiceName.ofString s).isSome ↔ s = "FINE_TUNING_JOB") ∧
    (∀ s, (BillingTransactionType.ofString s).isSome ↔
      (s = "MANUAL_ADJUSTMENT" ∨ s = "NEW_USER_CREDIT" ∨
       s = "FINE_TUNING_JOB" ∨ s = "STRIPE_CHECKOUT")) ∧
    (∀ s, (FineTunedModelStatus.ofString s).isSome ↔
      (s = "ACTIVE" ∨ s = "DELETED")) ∧
    (∀ s, (ComputeProvider.ofString s).isSome ↔ (s = "GCP" ∨ s = "LUM")) := by
  refine ⟨?_, ?_, ?_, ?_, ?_, ?_, ?_, ?_, ?_, ?_, ?_, ?_, ?_⟩
  · intro s m
    unfold ApiKeyStatus.ofString
    split <;> simp_all <;> (try constructor) <;> (intro h; cases h) <;> simp_all
  · intro s
    rw [parseEnumField_ok_iff]
    unfold ApiKeyStatus.ofString
    split <;> simp_all
  · intro s h
    exact parseEnumField_error_of_none _ s h
  · intro s; unfold UserStatus.ofString; split <;> simp_all
  · intro s; unfold DatasetStatus.ofString; split <;> simp_all
  · intro s; unfold FineTuningJobStatus.ofString; split <;> simp_all
  · intro s; unfold FineTuningJobType.ofString; split <;> simp_all
  · intro s; unfold BaseModelStatus.ofString; split <;> simp_all
  · intro s; unfold UsageUnit.ofString; split <;> simp_all
  · intro s; unfold ServiceName.ofString; split <;> simp_all
  · intro s; unfold BillingTransactionType.ofString; split <;> simp_all
  · intro s; unfold FineTunedModelStatus.ofString; split <;> simp_all
  · intro s; unfold ComputeProvider.ofString; split <;> simp_all

/-- Witness for C7: a concrete recognized value maps to its member, and a
concrete unrecognized value fails with a validation error. -/
theorem c7_enum_fidelity_witness :
    ApiKeyStatus.ofString "ACTIVE" = some .ACTIVE ∧
    (∃ msg, parseEnumField ApiKeyStatus.ofString "PENDING" =
      .error (.validationError msg)) :=
  ⟨(c7_enum_fidelity.1 "ACTIVE" .ACTIVE).mpr (Or.inl ⟨rfl, rfl⟩),
   c7_enum_fidelity.2.2.1 "PENDING" rfl⟩

/-- C8: for every string matching `^[a-z0-9-]+$` with length 1..255,
constructing a request schema with it as name succeeds; for every string
violating the length bounds or the pattern, construction fails with a
client validation error. -/
theorem c8_name_field_validation (s : String) :
    (matchesNamePattern s = true ↔
      s.data ≠ [] ∧ ∀ c ∈ s.data, nameCharOk c = true) ∧
    (validateNameField s = .ok s ↔
      (1 ≤ s.data.length ∧ s.data.length ≤ 255 ∧ matchesNamePattern s = true)) ∧
    ((1 ≤ s.data.length ∧ s.data.length ≤ 255 ∧ matchesNamePattern s = true) →
      DatasetCreate.make s none = .ok ⟨s, none⟩) ∧
    (¬(1 ≤ s.data.length ∧ s.data.length ≤ 255 ∧ matchesNamePattern s = true) →
      ∃ msg, DatasetCreate.make s none = .error (.validationError msg) ∧
        (SdkError.validationError msg).isClientSide = true) := by
  refine ⟨matchesNamePattern_iff s, validateNameField_ok_iff s, ?_, ?_⟩
  · intro h
    have hv := (validateNameField_ok_iff s).mpr h
    simp [DatasetCreate.make, hv]
  · intro h
    obtain ⟨msg, hmsg⟩ := validateNameField_error s h
    exact ⟨msg, by simp [DatasetCreate.make, hmsg], rfl⟩

/-- Witness for C8: a concrete valid name constructs, a concrete name with
an uppercase letter fails with a validation error. -/
theorem c8_name_field_validation_witness :
    DatasetCreate.make "test-dataset" none = .ok ⟨"test-dataset", none⟩ ∧
    (∃ msg, DatasetCreate.make "Bad-Name" none =
      .error (.validationError msg) ∧
      (SdkError.validationError msg).isClientSide = true) :=
  ⟨(c8_name_field_validation "test-dataset").2.2.1 (by decide),
   (c8_name_field_validation "Bad-Name").2.2.2 (by decide)⟩

/-- C9: constructing `ApiKeyUpdate` with `expires_at` explicitly set to
`None` does not succeed: the expiration validator runs on the `None` value
and fails with `AttributeError`, which is not the documented client
validation error; the only way to leave `expires_at` absent is to omit the
field, and a constructed instance has an unset `expires_at` exactly when
the field was omitted. -/
theorem c9_update_none_expiration (localOffset nowInstant : Int)
    (name : FieldState String) :
    ApiKeyUpdate.make localOffset nowInstant name .null =
      .error (.attributeError "NoneType object has no attribute astimezone") ∧
    (∀ m, SdkError.attributeError "NoneType object has no attribute astimezone" ≠
      SdkError.clientError m) ∧
    (∀ u, ApiKeyUpdate.make localOffset nowInstant name .unset = .ok u →
      u.expires_at = .unset) ∧
    (∀ v u, ApiKeyUpdate.make localOffset nowInstant name (.val v) = .ok u →
      u.expires_at = .val v) := by
  refine ⟨rfl, fun m => by simp, ?_, ?_⟩
  · intro u hu
    cases name with
    | unset => exact (Except.ok.inj hu) ▸ rfl
    | null => exact (Except.ok.inj hu) ▸ rfl
    | val s =>
        simp only [ApiKeyUpdate.make, Except.map] at hu
        cases hv : validateNameField s <;> rw [hv] at hu
        · cases hu
        · exact (Except.ok.inj hu) ▸ rfl
  · intro v u hu
    by_cases hp : v.utcInstant localOffset ≤ nowInstant
    · simp [ApiKeyUpdate.make, expirationMustBeFuture, hp, Except.map] at hu
    · cases name with
      | unset =>
          simp [ApiKeyUpdate.make, expirationMustBeFuture, hp, Except.map] at hu
          subst hu
          rfl
      | null =>
          simp [ApiKeyUpdate.make, expirationMustBeFuture, hp, Except.map] at hu
          subst hu
          rfl
      | val s =>
          cases hv : validateNameField s <;>
            simp [ApiKeyUpdate.make, expirationMustBeFuture, hp, hv,
              Except.map] at hu
          subst hu
          rfl

/-- Witness for C9 at concrete field states. -/
theorem c9_update_none_expiration_witness :
    ApiKeyUpdate.make 0 0 FieldState.unset .null =
      .error (.attributeError "NoneType object has no attribute astimezone") ∧
    (ApiKeyUpdate.mk FieldState.unset FieldState.unset).expires_at =
      FieldState.unset :=
  ⟨(c9_update_none_expiration 0 0 FieldState.unset).1,
   (c9_update_none_expiration 0 0 FieldState.unset).2.2.1
     (ApiKeyUpdate.mk FieldState.unset FieldState.unset) rfl⟩

/-- C10: constructing `FineTuningJobParameters` with no arguments succeeds
with the field defaults batch_size 2, shuffle true, num_epochs 1, lr 3e-4,
seed absent, and these defaults satisfy the documented ranges. -/
theorem c10_fine_tuning_defaults :
    FineTuningJobParameters.defaults.batch_size = 2 ∧
    FineTuningJobParameters.defaults.shuffle = true ∧
    FineTuningJobParameters.defaults.num_epochs = 1 ∧
    FineTuningJobParameters.defaults.lr = 3 / 10000 ∧
    FineTuningJobParameters.defaults.seed = none ∧
    FineTuningJobParameters.defaults.inRange := by
  refine ⟨rfl, rfl, rfl, rfl, rfl, ?_⟩
  unfold FineTuningJobParameters.inRange FineTuningJobParameters.defaults
  norm_num
